import Mathlib

/-!
Shallow embedding of the SafePassage core (risk monitor, network-status
simulator, liquidity oracle, payout simulators, chaos simulator) and
verification of the frozen claims about it.

Modelling conventions:
* Python floats are embedded as exact rationals (`ℚ`); Python ints as `ℤ`
  (or `ℕ` where the source guarantees non-negativity).
* `datetime` values are embedded as rational "seconds since epoch"; a
  difference of datetimes followed by `.total_seconds()` is plain
  subtraction.
* Each call of `random.random()` / `random.randint` in the source is made
  explicit as an injected draw parameter (the spec's "injectable RNG").
* Python's truncating `int()` conversion is `pyInt` below.
* Python's stable `list.sort(key=..., reverse=True)` is embedded as a
  stable insertion sort on the same key (stable descending sorts of a
  list are unique, so this is extensionally the source's sort).
* Python's substring test `a in b` on strings is `(a.data <:+: b.data)`.
-/

namespace SafePassage

/-- Python `int()` truncation toward zero on a rational. -/
def pyInt (q : ℚ) : ℤ := if 0 ≤ q then ⌊q⌋ else ⌈q⌉

/-- Python `str.lower()`. All strings this code lowercases are ASCII, on
which the per-character ASCII fold matches Python. -/
def pyLower (s : String) : String := String.mk (s.data.map Char.toLower)

/-- Substring containment, Python's `needle in hay` for strings. -/
def strContains (needle hay : String) : Bool := decide (needle.data <:+: hay.data)

/-- `models.PayoutMethod`. The `other` constructor models a value that is
not one of the four enum members reaching the dynamically typed code
(Python performs no type enforcement on the `method` field). -/
inductive PMethod where
  | crypto_wallet
  | wire_transfer
  | cash_pickup
  | mobile_money
  | other (s : String)
deriving DecidableEq

/-- The four enum members, in declaration order (`list(PayoutMethod)`). -/
def PMethod.enumList : List PMethod :=
  [.crypto_wallet, .wire_transfer, .cash_pickup, .mobile_money]

/-- A method is supported when it is one of the four enum members. -/
def PMethod.isSupported : PMethod → Bool
  | .other _ => false
  | _ => true

/-- `models.RiskType` (the enum member). -/
inductive RiskType where
  | political_unrest
  | natural_disaster
  | payment_disruption
  | health_emergency
  | security_threat
deriving DecidableEq

/-- `.value` of each `RiskType` enum member. -/
def RiskType.value : RiskType → String
  | .political_unrest => "political_unrest"
  | .natural_disaster => "natural_disaster"
  | .payment_disruption => "payment_disruption"
  | .health_emergency => "health_emergency"
  | .security_threat => "security_threat"

/-- `models.Location`. -/
structure Location where
  city : String
  country : String
  latitude : ℚ
  longitude : ℚ
deriving DecidableEq

/-- `models.RiskAlert` (timestamp embedded as rational seconds). -/
structure RiskAlert where
  alert_id : String
  location : Location
  risk_type : RiskType
  severity : ℤ
  source : String
  timestamp : ℚ
  title : String
  description : String
  affected_radius_km : ℚ
deriving DecidableEq

/-- `models.ExitFund`, restricted to the fields the core reads. -/
structure ExitFund where
  amount : ℚ
  currency : String
  payout_methods : List PMethod
deriving DecidableEq

/-- `models.UserProfile`, restricted to the fields the core reads. -/
structure UserProfile where
  current_location : Location
  exit_fund : Option ExitFund
deriving DecidableEq

/-- `payout_simulator.PayoutTransaction`. -/
structure PayoutTransaction where
  transaction_id : String
  method : PMethod
  amount : ℚ
  currency : String
  status : String
  initiated_at : ℚ
  completed_at : Option ℚ := none
  confirmation_code : Option String := none
  recipient_address : Option String := none
  estimated_arrival : Option ℚ := none
deriving DecidableEq

/-- `PayoutTransaction.get_progress_percentage`. -/
def PayoutTransaction.get_progress_percentage (t : PayoutTransaction) : ℤ :=
  if t.status = "completed" then 100
  else if t.status = "processing" then 60
  else if t.status = "pending" then 20
  else 0

/-- `CryptoWalletSimulator.initiate_payout`; `now` is `datetime.now()`,
`idHex` the hex rendering of the 32 random bytes drawn for the id. -/
def CryptoWalletSimulator.initiate_payout
    (now : ℚ) (amount : ℚ) (currency : String) (wallet_address : String)
    (idHex : String) : PayoutTransaction :=
  { transaction_id := "0x" ++ idHex
    method := .crypto_wallet
    amount := amount
    currency := currency
    status := "pending"
    initiated_at := now
    recipient_address := some wallet_address
    estimated_arrival := some (now + 15 * 60) }

/-- `CryptoWalletSimulator.check_status`; `now` is `datetime.now()` at the
moment of the poll. Thresholds: 2 and 10 minutes of elapsed time. -/
def CryptoWalletSimulator.check_status
    (now : ℚ) (t : PayoutTransaction) : PayoutTransaction :=
  let elapsed := (now - t.initiated_at) / 60
  if elapsed < 2 then
    { t with status := "pending" }
  else if elapsed < 10 then
    { t with status := "processing"
             confirmation_code :=
               some ("Confirmations: " ++ toString (pyInt elapsed) ++ "/12") }
  else
    { t with status := "completed"
             completed_at := some now
             confirmation_code := some "12/12 Confirmations" }

/-- `WireTransferSimulator.initiate_payout`; `refDraw` is the draw of
`random.randint(100000, 999999)`. -/
def WireTransferSimulator.initiate_payout
    (now : ℚ) (amount : ℚ) (currency : String)
    (refDraw : ℕ) : PayoutTransaction :=
  let ref := "WIRE" ++ toString refDraw
  { transaction_id := ref
    method := .wire_transfer
    amount := amount
    currency := currency
    status := "pending"
    initiated_at := now
    confirmation_code := some ref
    estimated_arrival := some (now + 2 * 86400) }

/-- `WireTransferSimulator.check_status`; thresholds 1 h and 48 h. -/
def WireTransferSimulator.check_status
    (now : ℚ) (t : PayoutTransaction) : PayoutTransaction :=
  let elapsed_hours := (now - t.initiated_at) / 3600
  if elapsed_hours < 1 then
    { t with status := "pending" }
  else if elapsed_hours < 48 then
    { t with status := "processing" }
  else
    { t with status := "completed", completed_at := some now }

/-- `CashPickupSimulator.initiate_payout`; `mtcnDraw` is the draw of
`random.randint(1000000000, 9999999999)`. -/
def CashPickupSimulator.initiate_payout
    (now : ℚ) (amount : ℚ) (currency : String)
    (mtcnDraw : ℕ) : PayoutTransaction :=
  let mtcn := toString mtcnDraw
  { transaction_id := mtcn
    method := .cash_pickup
    amount := amount
    currency := currency
    status := "pending"
    initiated_at := now
    confirmation_code := some ("MTCN: " ++ mtcn)
    estimated_arrival := some (now + 4 * 3600) }

/-- `CashPickupSimulator.check_status`; thresholds 0.5 h and 3 h. -/
def CashPickupSimulator.check_status
    (now : ℚ) (t : PayoutTransaction) : PayoutTransaction :=
  let elapsed_hours := (now - t.initiated_at) / 3600
  if elapsed_hours < 0.5 then
    { t with status := "pending" }
  else if elapsed_hours < 3 then
    { t with status := "processing" }
  else
    { t with status := "completed", completed_at := some now }

/-- `MobileMoneySimulator.initiate_payout`; `idDraw` is the draw of
`random.randint(100000000, 999999999)`. -/
def MobileMoneySimulator.initiate_payout
    (now : ℚ) (amount : ℚ) (currency : String) (phone_number : String)
    (idDraw : ℕ) : PayoutTransaction :=
  let tx_id := "MM" ++ toString idDraw
  { transaction_id := tx_id
    method := .mobile_money
    amount := amount
    currency := currency
    status := "pending"
    initiated_at := now
    recipient_address := some phone_number
    confirmation_code := some tx_id
    estimated_arrival := some (now + 30 * 60) }

/-- `MobileMoneySimulator.check_status`; thresholds 5 min and 20 min. -/
def MobileMoneySimulator.check_status
    (now : ℚ) (t : PayoutTransaction) : PayoutTransaction :=
  let elapsed_minutes := (now - t.initiated_at) / 60
  if elapsed_minutes < 5 then
    { t with status := "pending" }
  else if elapsed_minutes < 20 then
    { t with status := "processing" }
  else
    { t with status := "completed", completed_at := some now }

/-- `PayoutOrchestrator.initiate_payout`. The kwargs (with their source
defaults applied by the caller) and the id-generation draws are explicit
parameters; the unsupported-method `raise ValueError` is `Except.error`. -/
def PayoutOrchestrator.initiate_payout
    (now : ℚ) (method : PMethod) (amount : ℚ) (currency : String)
    (wallet_address : String) (phone_number : String)
    (idHex : String) (idDraw : ℕ) : Except String PayoutTransaction :=
  match method with
  | .crypto_wallet =>
      .ok (CryptoWalletSimulator.initiate_payout now amount currency wallet_address idHex)
  | .wire_transfer =>
      .ok (WireTransferSimulator.initiate_payout now amount currency idDraw)
  | .cash_pickup =>
      .ok (CashPickupSimulator.initiate_payout now amount currency idDraw)
  | .mobile_money =>
      .ok (MobileMoneySimulator.initiate_payout now amount currency phone_number idDraw)
  | .other s =>
      .error ("Unsupported payout method: " ++ s)

/-- `PayoutOrchestrator.check_status`: dispatch on the transaction's
method; any non-enum method falls through to `return transaction`. -/
def PayoutOrchestrator.check_status
    (now : ℚ) (t : PayoutTransaction) : PayoutTransaction :=
  match t.method with
  | .crypto_wallet => CryptoWalletSimulator.check_status now t
  | .wire_transfer => WireTransferSimulator.check_status now t
  | .cash_pickup => CashPickupSimulator.check_status now t
  | .mobile_money => MobileMoneySimulator.check_status now t
  | .other _ => t

/-- Rank of a transaction status in the pending < processing < completed
ordering. -/
def statusRank (s : String) : ℕ :=
  if s = "completed" then 2
  else if s = "processing" then 1
  else 0

/-- `liquidity_oracle.NetworkStatus`. -/
inductive NetworkStatus where
  | ONLINE
  | CONGESTED
  | OFFLINE
  | RESTRICTED
deriving DecidableEq

/-- `liquidity_oracle.NetworkCondition`. -/
structure NetworkCondition where
  status : NetworkStatus
  latency_ms : ℤ
  fee_multiplier : ℚ
  success_rate : ℚ
  message : String
deriving DecidableEq

/-- The healthy default state `get_network_status` starts from. -/
def baselineCondition : NetworkCondition :=
  { status := .ONLINE
    latency_ms := 100
    fee_multiplier := 1.0
    success_rate := 0.99
    message := "Network optimal" }

/-- `NetworkStatusSimulator.get_network_status`. The source draws
`rng = random.random()` inline; here `r` is that draw, made explicit.
The `location` parameter is accepted but, as in the source, unused. -/
def NetworkStatusSimulator.get_network_status
    (method : PMethod) (risk_level : ℤ) (_location : Location)
    (r : ℚ) : NetworkCondition :=
  let base := baselineCondition
  if risk_level ≥ 8 then
    if method = .wire_transfer ∨ method = .mobile_money then
      if r < 0.7 then
        { base with status := .OFFLINE
                    success_rate := 0.0
                    message := "Banks closed due to civil unrest" }
      else if r < 0.9 then
        { base with status := .RESTRICTED
                    fee_multiplier := 2.0
                    message := "Capital controls active - delays expected" }
      else base
    else if method = .crypto_wallet then
      if r < 0.3 then
        { base with status := .CONGESTED
                    latency_ms := 5000
                    fee_multiplier := 3.0
                    message := "Network congested - high gas fees" }
      else base
    else base
  else if risk_level ≥ 5 then
    if method = .cash_pickup ∧ r < 0.4 then
      { base with status := .RESTRICTED
                  message := "Limited agent availability" }
    else base
  else base

/-- `liquidity_oracle.PayoutRecommendation`. -/
structure PayoutRecommendation where
  method : PMethod
  match_score : ℤ
  network_condition : NetworkCondition
  estimated_time : String
  estimated_fee : String
  badges : List String
  reason : String
deriving DecidableEq

/-- The static trait rows of `LiquidityOracle.METHOD_Traits`
(speed, reliability, cost, privacy); `none` for a non-enum method,
on which the source dict lookup misses. -/
def LiquidityOracle.METHOD_Traits : PMethod → Option (ℚ × ℚ × ℚ × ℚ)
  | .crypto_wallet => some (9, 8, 7, 10)
  | .wire_transfer => some (3, 9, 5, 6)
  | .cash_pickup => some (7, 6, 4, 8)
  | .mobile_money => some (8, 9, 9, 7)
  | .other _ => none

/-- Scoring weights (speed, reliability, cost). -/
structure Weights where
  speed : ℚ
  reliability : ℚ
  cost : ℚ
deriving DecidableEq

/-- The weight-selection branch at the top of `get_recommendations`. -/
def LiquidityOracle.weightsFor (risk_level : ℤ) : Weights :=
  if risk_level ≥ 7 then
    { speed := 0.50, reliability := 0.40, cost := 0.10 }
  else
    { speed := 0.30, reliability := 0.30, cost := 0.40 }

/-- Python `f"{q:.2f}"` on a non-negative rational: nearest-cent
rendering with two decimals (all fee multipliers reaching it are 1, 2 or
3, on which the rounding is exact). -/
def format2 (q : ℚ) : String :=
  let c := ⌊q * 100 + 1 / 2⌋
  let whole := c / 100
  let frac := c % 100
  toString whole ++ "." ++ (if frac < 10 then "0" else "") ++ toString frac

/-- The body of the per-method loop in
`LiquidityOracle.get_recommendations`: build one recommendation from a
method and its freshly simulated network condition. -/
def LiquidityOracle.recommendOne
    (weights : Weights) (method : PMethod)
    (net_cond : NetworkCondition) : PayoutRecommendation :=
  if net_cond.status = .OFFLINE then
    { method := method
      match_score := 0
      network_condition := net_cond
      estimated_time := "N/A"
      estimated_fee := "N/A"
      badges := ["UNAVAILABLE"]
      reason := "Unavailable: " ++ net_cond.message }
  else
    let traits :=
      match LiquidityOracle.METHOD_Traits method with
      | some (s, rel, c, _) => (s, rel, c)
      | none => (5, 5, 5)
    let adj_speed :=
      if net_cond.status = .CONGESTED then traits.1 * 0.5 else traits.1
    let raw_score :=
      (adj_speed * weights.speed + traits.2.1 * weights.reliability
        + traits.2.2 * weights.cost) * 10
    let raw_score :=
      if net_cond.status = .RESTRICTED then raw_score * 0.7 else raw_score
    let score := pyInt (min 100 (max 0 raw_score))
    let badges :=
      (if net_cond.status = .ONLINE ∧ method = .crypto_wallet
        then ["⚡ Instant"] else [])
      ++ (if net_cond.status = .ONLINE ∧ method = .mobile_money
        then ["💰 Low Fee"] else [])
      ++ (if score > 90 then ["🏆 Recommended"] else [])
    let time_str :=
      if method = .crypto_wallet then
        (if net_cond.status = .ONLINE then "~10 mins" else "> 1 hour")
      else if method = .wire_transfer then "1-3 days"
      else if method = .cash_pickup then "2-4 hours"
      else if method = .mobile_money then "30 mins"
      else "Unknown"
    { method := method
      match_score := score
      network_condition := net_cond
      estimated_time := time_str
      estimated_fee := "$" ++ format2 (5 * net_cond.fee_multiplier)
      badges := badges
      reason := net_cond.message }

/-- The `for method in available_methods` loop: one network draw per
iteration, taken from the stream `draws` at the iteration index. -/
def LiquidityOracle.recommendList
    (weights : Weights) (risk_level : ℤ) (location : Location)
    (draws : ℕ → ℚ) : List PMethod → ℕ → List PayoutRecommendation
  | [], _ => []
  | m :: rest, i =>
      LiquidityOracle.recommendOne weights m
        (NetworkStatusSimulator.get_network_status m risk_level location (draws i))
      :: LiquidityOracle.recommendList weights risk_level location draws rest (i + 1)

/-- Stable insertion (descending by `match_score`): the new element goes
before the first strictly-smaller score, after equal ones. -/
def insertByScore (a : PayoutRecommendation) :
    List PayoutRecommendation → List PayoutRecommendation
  | [] => [a]
  | b :: t =>
      if a.match_score ≥ b.match_score then a :: b :: t
      else b :: insertByScore a t

/-- Stable descending sort by `match_score`, the embedding of
`recommendations.sort(key=lambda x: x.match_score, reverse=True)`
(Python's sort is stable, and a stable descending sort is unique). -/
def sortByScoreDesc (l : List PayoutRecommendation) : List PayoutRecommendation :=
  l.foldr insertByScore []

/-- The post-sort step that appends "⭐ Best Match" to the badge list of
the top recommendation when its score is positive. -/
def addBestMatch : List PayoutRecommendation → List PayoutRecommendation
  | [] => []
  | h :: t =>
      if h.match_score > 0 then
        { h with badges := h.badges ++ ["⭐ Best Match"] } :: t
      else h :: t

/-- `LiquidityOracle.get_recommendations`. -/
def LiquidityOracle.get_recommendations
    (user_profile : UserProfile) (risk_level : ℤ)
    (draws : ℕ → ℚ) : List PayoutRecommendation :=
  let weights := LiquidityOracle.weightsFor risk_level
  let location := user_profile.current_location
  let available_methods :=
    match user_profile.exit_fund with
    | some f => f.payout_methods
    | none => PMethod.enumList
  addBestMatch
    (sortByScoreDesc
      (LiquidityOracle.recommendList weights risk_level location draws
        available_methods 0))

/-- `RiskMonitor._is_nearby` / `EnhancedRiskMonitor._is_nearby`:
`sqrt(Δlat² + Δlon²) * 111 ≤ radius`. The square root is embedded by
squaring both sides (equivalent for the non-negative radii used). -/
def is_nearby (loc1 loc2 : Location) (radius_km : ℚ) : Bool :=
  let lat_diff := |loc1.latitude - loc2.latitude|
  let lon_diff := |loc1.longitude - loc2.longitude|
  decide ((lat_diff ^ 2 + lon_diff ^ 2) * 111 ^ 2 ≤ radius_km ^ 2)

/-- Python `max(alert.severity for alert in nearby_alerts)` on a
non-empty list (`0` on the empty list, unreachable in the source). -/
def maxSeverity : List RiskAlert → ℤ
  | [] => 0
  | a :: t => t.foldl (fun m b => max m b.severity) a.severity

/-- `RiskMonitor.get_nearby_alerts` (radius defaulted to 100 by the
caller `get_current_risk_level`). -/
def RiskMonitor.get_nearby_alerts
    (active_alerts : List RiskAlert) (location : Location)
    (radius_km : ℚ) : List RiskAlert :=
  active_alerts.filter (fun a => is_nearby location a.location radius_km)

/-- `RiskMonitor.get_current_risk_level`. `baselineDraw` is the value of
the inline `random.randint(1, 3)` baseline draw, made explicit. -/
def RiskMonitor.get_current_risk_level
    (active_alerts : List RiskAlert) (location : Location)
    (baselineDraw : ℤ) : ℤ :=
  let nearby_alerts := RiskMonitor.get_nearby_alerts active_alerts location 100
  if nearby_alerts = [] then baselineDraw
  else maxSeverity nearby_alerts

/-- `EnhancedRiskMonitor.get_nearby_alerts`: within radius, OR same
country (case-folded substring match either way) AND from an official
source. -/
def EnhancedRiskMonitor.get_nearby_alerts
    (active_alerts : List RiskAlert) (location : Location)
    (radius_km : ℚ) : List RiskAlert :=
  let user_country_lower := pyLower location.country
  active_alerts.filter (fun a =>
    is_nearby location a.location radius_km ||
      (let alert_country := pyLower a.location.country
       let alert_city := pyLower a.location.city
       (strContains user_country_lower alert_country
         || strContains user_country_lower alert_city
         || strContains alert_country user_country_lower)
       && (a.source = "U.S. State Department" || a.source = "GDELT")))

/-- `EnhancedRiskMonitor.get_current_risk_level`: baseline 2 when no
alert qualifies, else the maximum severity of the qualifying alerts. -/
def EnhancedRiskMonitor.get_current_risk_level
    (active_alerts : List RiskAlert) (location : Location) : ℤ :=
  let nearby_alerts := EnhancedRiskMonitor.get_nearby_alerts active_alerts location 100
  if nearby_alerts = [] then 2
  else maxSeverity nearby_alerts

/-- The channel-status dictionary built by
`ChaosSimulator._analyze_alerts_for_network_effects`. -/
structure NetworkEffects where
  banking : String
  atm : String
  crypto : String
  mobile_money : String
  cash_pickup : String
deriving DecidableEq

/-- The all-ONLINE default dictionary. -/
def allOnlineEffects : NetworkEffects :=
  { banking := "ONLINE", atm := "ONLINE", crypto := "ONLINE"
    mobile_money := "ONLINE", cash_pickup := "ONLINE" }

/-- Guard of the natural-disaster branch of the per-alert analysis. -/
def natCond (a : RiskAlert) : Bool :=
  strContains "natural" a.risk_type.value
    || strContains "disaster" a.risk_type.value
    || strContains "earthquake" (pyLower a.title)

/-- Guard of the payment-disruption branch. -/
def payCond (a : RiskAlert) : Bool :=
  strContains "payment" a.risk_type.value
    || strContains "disruption" a.risk_type.value

/-- Guard of the security-threat / armed-conflict branch. -/
def secCond (a : RiskAlert) : Bool :=
  strContains "security" a.risk_type.value
    || strContains "conflict" (pyLower a.description)
    || strContains "armed" (pyLower a.description)

/-- Guard of the political-unrest branch. -/
def polCond (a : RiskAlert) : Bool :=
  strContains "political" a.risk_type.value
    || strContains "unrest" a.risk_type.value

/-- One iteration of the `for alert in self.alerts` loop: the four
keyword branches applied in source order, each overwriting the channel
statuses it assigns. -/
def chaosStep (st : NetworkEffects) (a : RiskAlert) : NetworkEffects :=
  let st :=
    if natCond a then
      if a.severity ≥ 7 then
        { st with atm := "OFFLINE", mobile_money := "RESTRICTED" }
      else if a.severity ≥ 5 then
        { st with atm := "CONGESTED", mobile_money := "CONGESTED" }
      else st
    else st
  let st :=
    if payCond a then
      if a.severity ≥ 7 then
        { st with banking := "OFFLINE", atm := "OFFLINE" }
      else if a.severity ≥ 5 then
        { st with banking := "CONGESTED" }
      else st
    else st
  let st :=
    if secCond a then
      if a.severity ≥ 9 then
        { st with banking := "RESTRICTED", atm := "OFFLINE"
                  cash_pickup := "OFFLINE", mobile_money := "RESTRICTED" }
      else if a.severity ≥ 7 then
        { st with banking := "CONGESTED", atm := "RESTRICTED"
                  cash_pickup := "CONGESTED" }
      else st
    else st
  if polCond a then
    if a.severity ≥ 8 then
      { st with banking := "CONGESTED", atm := "CONGESTED"
                cash_pickup := "CONGESTED" }
    else st
  else st

/-- `ChaosSimulator._analyze_alerts_for_network_effects`: fold the
per-alert step over the alert list, then derive the crypto channel from
the final banking status. -/
def ChaosSimulator.analyze_alerts_for_network_effects
    (alerts : List RiskAlert) : NetworkEffects :=
  if alerts = [] then allOnlineEffects
  else
    let st := alerts.foldl chaosStep allOnlineEffects
    if st.banking = "OFFLINE" then { st with crypto := "CONGESTED" }
    else { st with crypto := "ONLINE" }

/-- Rank of a channel status in the ONLINE < CONGESTED < RESTRICTED <
OFFLINE severity ordering. -/
def effectRank (s : String) : ℕ :=
  if s = "OFFLINE" then 3
  else if s = "RESTRICTED" then 2
  else if s = "CONGESTED" then 1
  else 0

/-- Does an optional string contain the given substring? -/
def optContainsB (needle : String) : Option String → Bool
  | some s => strContains needle s
  | none => false

/-- The OFFLINE condition produced for bank-like methods in a crisis. -/
def offlineBanksCondition : NetworkCondition :=
  { baselineCondition with
      status := .OFFLINE
      success_rate := 0.0
      message := "Banks closed due to civil unrest" }

/-- The RESTRICTED capital-controls condition. -/
def capitalControlsCondition : NetworkCondition :=
  { baselineCondition with
      status := .RESTRICTED
      fee_multiplier := 2.0
      message := "Capital controls active - delays expected" }

/-- The CONGESTED crypto condition. -/
def congestedCryptoCondition : NetworkCondition :=
  { baselineCondition with
      status := .CONGESTED
      latency_ms := 5000
      fee_multiplier := 3.0
      message := "Network congested - high gas fees" }

/-- The RESTRICTED cash-pickup condition of the moderate tier. -/
def limitedAgentsCondition : NetworkCondition :=
  { baselineCondition with
      status := .RESTRICTED
      message := "Limited agent availability" }

/-- Concrete location used for witnesses (the demo profile's city). -/
def locTest : Location := ⟨"Kyiv", "Ukraine", 50.4501, 30.5234⟩

/-- A degenerate RNG stream that always draws 0.5. -/
def constHalf : ℕ → ℚ := fun _ => 1 / 2

/-- Profile offering all four methods, in the order of Scenario B. -/
def profileAllMethods : UserProfile :=
  ⟨locTest, some ⟨5000, "USD",
    [.crypto_wallet, .mobile_money, .wire_transfer, .cash_pickup]⟩⟩

/-- Profile offering only wire transfer (Scenario A). -/
def profileWireOnly : UserProfile :=
  ⟨locTest, some ⟨5000, "USD", [.wire_transfer]⟩⟩

/-- A crypto payout initiated at t0 = 0 (Scenario C). -/
def cryptoTxTest : PayoutTransaction :=
  CryptoWalletSimulator.initiate_payout 0 100 "USD"
    "0x742d35Cc6634C0532925a3b844Bc9e7595f0bEb" "ab12"

/-- A transaction whose method is not one of the four enum members. -/
def txOtherMethod : PayoutTransaction :=
  { transaction_id := "X1"
    method := .other "paypal"
    amount := 100
    currency := "USD"
    status := "pending"
    initiated_at := 0 }

/-- The recommendation produced for an OFFLINE wire transfer. -/
def offlineWireRec : PayoutRecommendation :=
  { method := .wire_transfer
    match_score := 0
    network_condition := offlineBanksCondition
    estimated_time := "N/A"
    estimated_fee := "N/A"
    badges := ["UNAVAILABLE"]
    reason := "Unavailable: Banks closed due to civil unrest" }

/-- A severity-7 payment-disruption alert (degrades banking and atm to
OFFLINE). -/
def alertPayment : RiskAlert :=
  ⟨"a1", locTest, .payment_disruption, 7, "BBC News", 0,
    "Banking Crisis", "Ongoing banking restrictions", 100⟩

/-- A later, milder severity-5 natural-disaster alert (sets atm and
mobile money to CONGESTED). -/
def alertFlood : RiskAlert :=
  ⟨"a2", locTest, .natural_disaster, 5, "USGS", 0,
    "Flood", "River flooding reported", 50⟩

/-- A severity-9 alert located exactly at `locTest`. -/
def alertNear : RiskAlert :=
  ⟨"n1", locTest, .political_unrest, 9, "Reuters", 0,
    "Political Unrest in Kyiv", "Major protests", 50⟩

/-- Whether an initiation attempt succeeded (no exception raised). -/
def initiateOk : Except String PayoutTransaction → Bool
  | .ok _ => true
  | .error _ => false

/-- C9: for every payout method, `check_status` mutates only `status`,
`completed_at` and `confirmation_code`; the fields `transaction_id`,
`method`, `amount`, `currency`, `initiated_at`, `recipient_address` and
`estimated_arrival` keep, on every call and at every poll time, the
values assigned at initiation — in particular `estimated_arrival` is
never changed after initiation. (Proved for all method values, which
covers every supported method.) -/
theorem check_status_frame (now : ℚ) (t : PayoutTransaction) :
    (PayoutOrchestrator.check_status now t).transaction_id = t.transaction_id ∧
    (PayoutOrchestrator.check_status now t).method = t.method ∧
    (PayoutOrchestrator.check_status now t).amount = t.amount ∧
    (PayoutOrchestrator.check_status now t).currency = t.currency ∧
    (PayoutOrchestrator.check_status now t).initiated_at = t.initiated_at ∧
    (PayoutOrchestrator.check_status now t).recipient_address = t.recipient_address ∧
    (PayoutOrchestrator.check_status now t).estimated_arrival = t.estimated_arrival := by
  obtain ⟨id, m, am, cur, st, ia, ca, cc, ra, ea⟩ := t
  cases m <;>
    simp only [PayoutOrchestrator.check_status,
      CryptoWalletSimulator.check_status, WireTransferSimulator.check_status,
      CashPickupSimulator.check_status, MobileMoneySimulator.check_status] <;>
    first
      | (split_ifs <;> simp)
      | simp

/-- C10: `PayoutOrchestrator.check_status` on a transaction whose method
is not one of the four known payout methods raises no error and returns
the transaction unchanged, every field included. -/
theorem check_status_unknown_method (now : ℚ) (t : PayoutTransaction)
    (s : String) (h : t.method = .other s) :
    PayoutOrchestrator.check_status now t = t := by
  unfold PayoutOrchestrator.check_status
  rw [h]

/-- Witness for C10 at a concrete transaction with method "paypal". -/
theorem check_status_unknown_method_witness :
    PayoutOrchestrator.check_status 60 txOtherMethod = txOtherMethod :=
  check_status_unknown_method 60 txOtherMethod "paypal" rfl

/-- C3: for every supported payout method, the status computed by
`check_status` as a function of elapsed time from `initiated_at` is
monotone non-decreasing in the ordering
pending < processing < completed. -/
theorem check_status_monotone (t : PayoutTransaction) (t1 t2 : ℚ)
    (hsup : t.method.isSupported = true) (h12 : t1 < t2) :
    statusRank (PayoutOrchestrator.check_status (t.initiated_at + t1) t).status ≤
      statusRank (PayoutOrchestrator.check_status (t.initiated_at + t2) t).status := by
  obtain ⟨id, m, am, cur, st, ia, ca, cc, ra, ea⟩ := t
  cases m
  case other s => simp [PMethod.isSupported] at hsup
  all_goals
    simp only [PayoutOrchestrator.check_status,
      CryptoWalletSimulator.check_status, WireTransferSimulator.check_status,
      CashPickupSimulator.check_status, MobileMoneySimulator.check_status]
  all_goals split_ifs <;> first | (simp only []; decide) | (exfalso; linarith)

/-- Witness for C3: the crypto test transaction polled at one minute and
at five minutes of elapsed time. -/
theorem check_status_monotone_witness :
    statusRank (PayoutOrchestrator.check_status
        (cryptoTxTest.initiated_at + 60) cryptoTxTest).status ≤
      statusRank (PayoutOrchestrator.check_status
        (cryptoTxTest.initiated_at + 300) cryptoTxTest).status :=
  check_status_monotone cryptoTxTest 60 300 rfl (by norm_num)

/-- C5: for a crypto payout initiated at t0 = 0, `check_status` at
t0+1 min returns "pending"; at t0+5 min it returns "processing" with a
confirmation code containing "5/12"; at t0+11 min it returns "completed"
with `completed_at` set and confirmation code "12/12 Confirmations".
The pending→processing boundary is at 2 minutes and the
processing→completed boundary at 10 minutes (the final clause
characterises the status for every poll time). -/
theorem crypto_status_timeline :
    (CryptoWalletSimulator.check_status 60 cryptoTxTest).status = "pending" ∧
    ((CryptoWalletSimulator.check_status 300 cryptoTxTest).status = "processing" ∧
      (CryptoWalletSimulator.check_status 300 cryptoTxTest).confirmation_code =
        some "Confirmations: 5/12" ∧
      optContainsB "5/12"
        (CryptoWalletSimulator.check_status 300 cryptoTxTest).confirmation_code = true) ∧
    ((CryptoWalletSimulator.check_status 660 cryptoTxTest).status = "completed" ∧
      (CryptoWalletSimulator.check_status 660 cryptoTxTest).completed_at = some 660 ∧
      (CryptoWalletSimulator.check_status 660 cryptoTxTest).confirmation_code =
        some "12/12 Confirmations") ∧
    ∀ now : ℚ,
      ((CryptoWalletSimulator.check_status now cryptoTxTest).status = "pending" ↔
        now < 120) ∧
      ((CryptoWalletSimulator.check_status now cryptoTxTest).status = "processing" ↔
        120 ≤ now ∧ now < 600) ∧
      ((CryptoWalletSimulator.check_status now cryptoTxTest).status = "completed" ↔
        600 ≤ now) := by
  refine ⟨?_, ⟨?_, ?_, ?_⟩, ⟨?_, ?_, ?_⟩, ?_⟩
  · norm_num [CryptoWalletSimulator.check_status, cryptoTxTest,
      CryptoWalletSimulator.initiate_payout]
  · norm_num [CryptoWalletSimulator.check_status, cryptoTxTest,
      CryptoWalletSimulator.initiate_payout]
  · norm_num [CryptoWalletSimulator.check_status, cryptoTxTest,
      CryptoWalletSimulator.initiate_payout, pyInt]
    try decide
  · norm_num [CryptoWalletSimulator.check_status, cryptoTxTest,
      CryptoWalletSimulator.initiate_payout, pyInt, optContainsB, strContains]
    try decide
  · norm_num [CryptoWalletSimulator.check_status, cryptoTxTest,
      CryptoWalletSimulator.initiate_payout]
  · norm_num [CryptoWalletSimulator.check_status, cryptoTxTest,
      CryptoWalletSimulator.initiate_payout]
  · norm_num [CryptoWalletSimulator.check_status, cryptoTxTest,
      CryptoWalletSimulator.initiate_payout]
  · intro now
    have h0 : cryptoTxTest.initiated_at = 0 := rfl
    simp only [CryptoWalletSimulator.check_status, h0]
    split_ifs with h1 h2 <;> simp only []
    · exact ⟨iff_of_true trivial (by linarith),
        iff_of_false (by decide) (by rintro ⟨ha, _⟩; linarith),
        iff_of_false (by decide) (by intro hb; linarith)⟩
    · exact ⟨iff_of_false (by decide) (by intro hb; linarith),
        iff_of_true trivial ⟨by linarith, by linarith⟩,
        iff_of_false (by decide) (by intro hb; linarith)⟩
    · exact ⟨iff_of_false (by decide) (by intro hb; linarith),
        iff_of_false (by decide) (by rintro ⟨_, hb⟩; linarith),
        iff_of_true trivial (by linarith)⟩

/-- Below risk level 5 the simulator returns the healthy baseline for
every method and every draw. -/
lemma get_network_status_low (m : PMethod) (risk : ℤ) (loc : Location)
    (r : ℚ) (h : risk < 5) :
    NetworkStatusSimulator.get_network_status m risk loc r = baselineCondition := by
  simp only [NetworkStatusSimulator.get_network_status]
  rw [if_neg (by omega), if_neg (by omega)]

/-- C1: with all four methods available at risk level 3 (every network
condition is the ONLINE baseline, whatever the draws), the oracle uses
the normal weights {speed 0.30, reliability 0.30, cost 0.40}, scores
crypto_wallet 79 and mobile_money 87, and ranks mobile_money first
(full ranking mobile 87, crypto 79, wire 56, cash 55). -/
theorem scenario_b_ranking (p : UserProfile) (f : ExitFund) (draws : ℕ → ℚ)
    (hf : p.exit_fund = some f)
    (hm : f.payout_methods =
      [.crypto_wallet, .mobile_money, .wire_transfer, .cash_pickup]) :
    LiquidityOracle.weightsFor 3 =
      { speed := 0.30, reliability := 0.30, cost := 0.40 } ∧
    (LiquidityOracle.get_recommendations p 3 draws).map
        (fun x => (x.method, x.match_score)) =
      [(.mobile_money, 87), (.crypto_wallet, 79),
       (.wire_transfer, 56), (.cash_pickup, 55)] := by
  constructor
  · norm_num [LiquidityOracle.weightsFor]
  · have hb : ∀ m r,
        NetworkStatusSimulator.get_network_status m 3 p.current_location r =
          baselineCondition :=
      fun m r => get_network_status_low m 3 p.current_location r (by omega)
    simp only [LiquidityOracle.get_recommendations, hf, hm]
    norm_num +decide [LiquidityOracle.recommendList, hb, LiquidityOracle.recommendOne,
      LiquidityOracle.weightsFor, LiquidityOracle.METHOD_Traits,
      baselineCondition, pyInt, sortByScoreDesc, insertByScore, addBestMatch]

/-- Witness for C1 at the concrete all-methods profile and a constant
draw stream. -/
theorem scenario_b_ranking_witness :
    LiquidityOracle.weightsFor 3 =
      { speed := 0.30, reliability := 0.30, cost := 0.40 } ∧
    (LiquidityOracle.get_recommendations profileAllMethods 3 constHalf).map
        (fun x => (x.method, x.match_score)) =
      [(.mobile_money, 87), (.crypto_wallet, 79),
       (.wire_transfer, 56), (.cash_pickup, 55)] :=
  scenario_b_ranking profileAllMethods
    ⟨5000, "USD", [.crypto_wallet, .mobile_money, .wire_transfer, .cash_pickup]⟩
    constHalf rfl rfl

/-- A recommendation built by `recommendOne` whose network condition is
OFFLINE has score 0, badges ["UNAVAILABLE"] and "N/A" time and fee. -/
lemma offline_spec_recommendOne (w : Weights) (m : PMethod) (nc : NetworkCondition)
    (hoff : (LiquidityOracle.recommendOne w m nc).network_condition.status = .OFFLINE) :
    (LiquidityOracle.recommendOne w m nc).match_score = 0 ∧
    (LiquidityOracle.recommendOne w m nc).badges = ["UNAVAILABLE"] ∧
    (LiquidityOracle.recommendOne w m nc).estimated_time = "N/A" ∧
    (LiquidityOracle.recommendOne w m nc).estimated_fee = "N/A" := by
  by_cases h : nc.status = .OFFLINE
  · simp [LiquidityOracle.recommendOne, h]
  · simp only [LiquidityOracle.recommendOne, if_neg h] at hoff
    exact absurd hoff h

/-- Members of `insertByScore a l` are `a` or members of `l`. -/
lemma mem_insertByScore {x a : PayoutRecommendation} :
    ∀ {l : List PayoutRecommendation}, x ∈ insertByScore a l → x = a ∨ x ∈ l := by
  intro l
  induction l with
  | nil => intro h; simpa [insertByScore] using h
  | cons b t ih =>
    intro h
    simp only [insertByScore] at h
    split_ifs at h
    · rcases List.mem_cons.1 h with h1 | h2
      · exact Or.inl h1
      · exact Or.inr h2
    · rcases List.mem_cons.1 h with h1 | h2
      · exact Or.inr (by simp [h1])
      · rcases ih h2 with h3 | h4
        · exact Or.inl h3
        · exact Or.inr (by simp [h4])

/-- The stable sort does not introduce new elements. -/
lemma mem_sortByScoreDesc {x : PayoutRecommendation} :
    ∀ {l : List PayoutRecommendation}, x ∈ sortByScoreDesc l → x ∈ l := by
  intro l
  induction l with
  | nil => intro h; simp [sortByScoreDesc] at h
  | cons b t ih =>
    intro h
    have h' : x ∈ insertByScore b (sortByScoreDesc t) := h
    rcases mem_insertByScore h' with h1 | h2
    · simp [h1]
    · exact List.mem_cons_of_mem b (ih h2)

/-- Every member of the per-method loop output is a `recommendOne`. -/
lemma mem_recommendList_recommendOne {x : PayoutRecommendation}
    (w : Weights) (risk : ℤ) (loc : Location) (draws : ℕ → ℚ) :
    ∀ (ms : List PMethod) (i : ℕ),
      x ∈ LiquidityOracle.recommendList w risk loc draws ms i →
      ∃ m nc, x = LiquidityOracle.recommendOne w m nc := by
  intro ms
  induction ms with
  | nil => intro i h; simp [LiquidityOracle.recommendList] at h
  | cons m rest ih =>
    intro i h
    simp only [LiquidityOracle.recommendList] at h
    rcases List.mem_cons.1 h with h1 | h2
    · exact ⟨m, _, h1⟩
    · exact ih (i + 1) h2

/-- Members of `addBestMatch l` are members of `l`, or the badge-extended
head of `l` whose score is positive. -/
lemma mem_addBestMatch {x : PayoutRecommendation} {l : List PayoutRecommendation}
    (h : x ∈ addBestMatch l) :
    x ∈ l ∨ ∃ y ∈ l, 0 < y.match_score ∧
      x = { y with badges := y.badges ++ ["⭐ Best Match"] } := by
  match l with
  | [] => simp [addBestMatch] at h
  | hd :: t =>
    simp only [addBestMatch] at h
    split_ifs at h with hs
    · rcases List.mem_cons.1 h with h1 | h2
      · exact Or.inr ⟨hd, List.mem_cons_self hd t, hs, h1⟩
      · exact Or.inl (List.mem_cons_of_mem hd h2)
    · exact Or.inl h

/-- C2: every recommendation returned by `get_recommendations` whose
simulated network condition is OFFLINE has match_score 0, badges exactly
["UNAVAILABLE"], and estimated time and fee "N/A" (such a
recommendation is built by the early OFFLINE branch, so no weighted
score is computed for it and it never carries a score-derived badge). -/
theorem offline_recommendation_unavailable (p : UserProfile) (risk : ℤ)
    (draws : ℕ → ℚ) (rec : PayoutRecommendation)
    (hmem : rec ∈ LiquidityOracle.get_recommendations p risk draws)
    (hoff : rec.network_condition.status = .OFFLINE) :
    rec.match_score = 0 ∧ rec.badges = ["UNAVAILABLE"] ∧
    rec.estimated_time = "N/A" ∧ rec.estimated_fee = "N/A" := by
  simp only [LiquidityOracle.get_recommendations] at hmem
  rcases mem_addBestMatch hmem with hx | ⟨y, hy, hpos, hxy⟩
  · have hx' := mem_sortByScoreDesc hx
    obtain ⟨m, nc, rfl⟩ := mem_recommendList_recommendOne _ _ _ _ _ _ hx'
    exact offline_spec_recommendOne _ _ _ hoff
  · have hy' := mem_sortByScoreDesc hy
    obtain ⟨m, nc, rfl⟩ := mem_recommendList_recommendOne _ _ _ _ _ _ hy'
    subst hxy
    simp only [] at hoff
    have h0 := (offline_spec_recommendOne _ _ _ hoff).1
    omega

/-- Witness for C2: the OFFLINE wire-transfer recommendation produced at
risk level 9 with draw 0.5. -/
theorem offline_recommendation_unavailable_witness :
    offlineWireRec.match_score = 0 ∧ offlineWireRec.badges = ["UNAVAILABLE"] ∧
    offlineWireRec.estimated_time = "N/A" ∧ offlineWireRec.estimated_fee = "N/A" :=
  offline_recommendation_unavailable profileWireOnly 9 constHalf offlineWireRec
    (by norm_num +decide [LiquidityOracle.get_recommendations,
      LiquidityOracle.recommendList, LiquidityOracle.recommendOne,
      LiquidityOracle.weightsFor, LiquidityOracle.METHOD_Traits,
      NetworkStatusSimulator.get_network_status, profileWireOnly, constHalf,
      sortByScoreDesc, insertByScore, addBestMatch, offlineWireRec,
      offlineBanksCondition, baselineCondition, pyInt])
    rfl

/-- C4: `get_network_status` starts from the healthy baseline (ONLINE,
100 ms, fee 1.0, success 0.99) and degrades exactly as follows. Risk ≥ 8:
wire transfer and mobile money go OFFLINE (success 0) on r < 0.7,
RESTRICTED (fee 2.0) on 0.7 ≤ r < 0.9, and stay baseline otherwise;
crypto goes CONGESTED (latency 5000, fee 3.0) on r < 0.3 and stays
baseline otherwise; cash pickup and unknown methods stay baseline.
5 ≤ risk < 8: only cash pickup with r < 0.4 becomes RESTRICTED; all
other methods stay baseline. Risk < 5: baseline unchanged for every
method. In particular at risk 9 with wire transfer and r = 0.5 the
status is OFFLINE and the resulting recommendation has match score 0. -/
theorem network_status_spec (risk : ℤ) (loc : Location) (r : ℚ) :
    (risk < 5 → ∀ m,
      NetworkStatusSimulator.get_network_status m risk loc r = baselineCondition) ∧
    (5 ≤ risk → risk < 8 →
      (r < 0.4 →
        NetworkStatusSimulator.get_network_status .cash_pickup risk loc r =
          limitedAgentsCondition) ∧
      (0.4 ≤ r →
        NetworkStatusSimulator.get_network_status .cash_pickup risk loc r =
          baselineCondition) ∧
      (∀ m, m ≠ .cash_pickup →
        NetworkStatusSimulator.get_network_status m risk loc r =
          baselineCondition)) ∧
    (8 ≤ risk →
      (r < 0.7 →
        NetworkStatusSimulator.get_network_status .wire_transfer risk loc r =
          offlineBanksCondition ∧
        NetworkStatusSimulator.get_network_status .mobile_money risk loc r =
          offlineBanksCondition) ∧
      (0.7 ≤ r → r < 0.9 →
        NetworkStatusSimulator.get_network_status .wire_transfer risk loc r =
          capitalControlsCondition ∧
        NetworkStatusSimulator.get_network_status .mobile_money risk loc r =
          capitalControlsCondition) ∧
      (0.9 ≤ r →
        NetworkStatusSimulator.get_network_status .wire_transfer risk loc r =
          baselineCondition ∧
        NetworkStatusSimulator.get_network_status .mobile_money risk loc r =
          baselineCondition) ∧
      (r < 0.3 →
        NetworkStatusSimulator.get_network_status .crypto_wallet risk loc r =
          congestedCryptoCondition) ∧
      (0.3 ≤ r →
        NetworkStatusSimulator.get_network_status .crypto_wallet risk loc r =
          baselineCondition) ∧
      NetworkStatusSimulator.get_network_status .cash_pickup risk loc r =
        baselineCondition ∧
      (∀ s, NetworkStatusSimulator.get_network_status (.other s) risk loc r =
        baselineCondition)) ∧
    ((NetworkStatusSimulator.get_network_status .wire_transfer 9 loc (1 / 2)).status =
      .OFFLINE ∧
     (LiquidityOracle.get_recommendations
        ⟨loc, some ⟨5000, "USD", [.wire_transfer]⟩⟩ 9 constHalf).map
          (fun x => (x.method, x.match_score)) = [(.wire_transfer, 0)]) := by
  refine ⟨?_, ?_, ?_, ?_, ?_⟩
  · intro h m
    exact get_network_status_low m risk loc r h
  · intro h5 h8
    refine ⟨?_, ?_, ?_⟩
    · intro hr
      simp only [NetworkStatusSimulator.get_network_status]
      rw [if_neg (by omega), if_pos (by omega), if_pos (by exact ⟨by simp, hr⟩)]
      rfl
    · intro hr
      simp only [NetworkStatusSimulator.get_network_status]
      rw [if_neg (by omega), if_pos (by omega),
        if_neg (fun hc => absurd hc.2 (by linarith))]
    · intro m hm
      simp only [NetworkStatusSimulator.get_network_status]
      rw [if_neg (by omega), if_pos (by omega), if_neg (fun hc => hm hc.1)]
  · intro h8
    refine ⟨?_, ?_, ?_, ?_, ?_, ?_, ?_⟩
    · intro hr
      constructor <;>
        (simp only [NetworkStatusSimulator.get_network_status]
         rw [if_pos (by omega), if_pos (by simp), if_pos hr]
         rfl)
    · intro hr7 hr9
      constructor <;>
        (simp only [NetworkStatusSimulator.get_network_status]
         rw [if_pos (by omega), if_pos (by simp),
           if_neg (by linarith), if_pos hr9]
         rfl)
    · intro hr
      constructor <;>
        (simp only [NetworkStatusSimulator.get_network_status]
         rw [if_pos (by omega), if_pos (by simp),
           if_neg (by linarith), if_neg (by linarith)])
    · intro hr
      simp only [NetworkStatusSimulator.get_network_status]
      rw [if_pos (by omega), if_neg (by simp), if_pos (by simp), if_pos hr]
      rfl
    · intro hr
      simp only [NetworkStatusSimulator.get_network_status]
      rw [if_pos (by omega), if_neg (by simp), if_pos (by simp),
        if_neg (by linarith)]
    · simp only [NetworkStatusSimulator.get_network_status]
      rw [if_pos (by omega), if_neg (by simp), if_neg (by simp)]
    · intro s
      simp only [NetworkStatusSimulator.get_network_status]
      rw [if_pos (by omega), if_neg (by simp), if_neg (by simp)]
  · simp only [NetworkStatusSimulator.get_network_status]
    rw [if_pos (by omega), if_pos (by simp), if_pos (by norm_num)]
  · norm_num +decide [LiquidityOracle.get_recommendations,
      LiquidityOracle.recommendList, LiquidityOracle.recommendOne,
      LiquidityOracle.weightsFor, NetworkStatusSimulator.get_network_status,
      constHalf, sortByScoreDesc, insertByScore, addBestMatch,
      baselineCondition, pyInt]

/-- Witness for C4: risk 9, wire transfer, draw 0.5 yields the OFFLINE
banks-closed condition. -/
theorem network_status_spec_witness :
    NetworkStatusSimulator.get_network_status .wire_transfer 9 locTest (1 / 2) =
      offlineBanksCondition := by
  have h := network_status_spec 9 locTest (1 / 2)
  exact ((h.2.2.1 (by norm_num)).1 (by norm_num)).1

/-- C7 is false on the code: `initiate_payout` performs no amount
validation and no `InvalidInputError` exists anywhere in the repository.
At amount = -50 with crypto_wallet the call raises nothing and returns a
pending transaction carrying -50. -/
theorem negative_amount_accepted_counterexample :
    PayoutOrchestrator.initiate_payout 0 .crypto_wallet (-50) "USD"
        "0x742d35Cc6634C0532925a3b844Bc9e7595f0bEb" "+254-700-000000"
        "ab12" 123456 =
      .ok (CryptoWalletSimulator.initiate_payout 0 (-50) "USD"
        "0x742d35Cc6634C0532925a3b844Bc9e7595f0bEb" "ab12") ∧
    (CryptoWalletSimulator.initiate_payout 0 (-50) "USD"
        "0x742d35Cc6634C0532925a3b844Bc9e7595f0bEb" "ab12").amount = -50 ∧
    (CryptoWalletSimulator.initiate_payout 0 (-50) "USD"
        "0x742d35Cc6634C0532925a3b844Bc9e7595f0bEb" "ab12").status = "pending" :=
  ⟨rfl, rfl, rfl⟩

/-- C7 amended: for every supported method and every amount — including
non-positive amounts such as -50 — `initiate_payout` raises no error and
returns a pending transaction whose amount is the given value unchanged;
only an unsupported method fails (with ValueError). -/
theorem initiate_payout_no_amount_validation (now amount : ℚ)
    (currency wallet phone idHex : String) (idDraw : ℕ) (m : PMethod)
    (h : m.isSupported = true) :
    ∃ tx, PayoutOrchestrator.initiate_payout now m amount currency wallet
        phone idHex idDraw = .ok tx ∧
      tx.amount = amount ∧ tx.status = "pending" := by
  cases m
  case other s => simp [PMethod.isSupported] at h
  all_goals exact ⟨_, rfl, rfl, rfl⟩

/-- Witness for amended C7: mobile money at amount -50 initiates
successfully. -/
theorem initiate_payout_no_amount_validation_witness :
    initiateOk (PayoutOrchestrator.initiate_payout 0 .mobile_money (-50)
      "USD" "w" "+254-700-000000" "ab12" 7) = true := by
  obtain ⟨tx, h1, -, -⟩ :=
    initiate_payout_no_amount_validation 0 (-50) "USD" "w" "+254-700-000000"
      "ab12" 7 .mobile_money rfl
  rw [h1]
  rfl

/-- The severity fold is an upper bound of its seed and of every listed
alert's severity. -/
lemma foldl_max_le (t : List RiskAlert) : ∀ init : ℤ,
    init ≤ t.foldl (fun m b => max m b.severity) init ∧
    ∀ a ∈ t, a.severity ≤ t.foldl (fun m b => max m b.severity) init := by
  induction t with
  | nil => intro init; exact ⟨le_refl _, by simp⟩
  | cons b t ih =>
    intro init
    simp only [List.foldl_cons]
    refine ⟨le_trans (le_max_left _ _) (ih (max init b.severity)).1, ?_⟩
    intro a ha
    rcases List.mem_cons.1 ha with h1 | h2
    · subst h1
      exact le_trans (le_max_right _ _) (ih (max init a.severity)).1
    · exact (ih (max init b.severity)).2 a h2

/-- The severity fold equals its seed or some listed severity. -/
lemma foldl_max_mem (t : List RiskAlert) : ∀ init : ℤ,
    t.foldl (fun m b => max m b.severity) init = init ∨
    ∃ a ∈ t, t.foldl (fun m b => max m b.severity) init = a.severity := by
  induction t with
  | nil => intro init; exact Or.inl rfl
  | cons b t ih =>
    intro init
    simp only [List.foldl_cons]
    rcases ih (max init b.severity) with h | ⟨a, ha, heq⟩
    · rcases max_choice init b.severity with hm | hm
      · exact Or.inl (by rw [h, hm])
      · exact Or.inr ⟨b, by simp, by rw [h, hm]⟩
    · exact Or.inr ⟨a, by simp [ha], heq⟩

/-- On a non-empty list, `maxSeverity` is attained by a member and
bounds every member. -/
lemma maxSeverity_spec : ∀ (l : List RiskAlert), l ≠ [] →
    (∃ a ∈ l, maxSeverity l = a.severity) ∧
    ∀ a ∈ l, a.severity ≤ maxSeverity l := by
  intro l hne
  match l with
  | [] => exact absurd rfl hne
  | a :: t =>
    refine ⟨?_, ?_⟩
    · rcases foldl_max_mem t a.severity with h | ⟨b, hb, heq⟩
      · exact ⟨a, by simp, h⟩
      · exact ⟨b, by simp [hb], heq⟩
    · intro x hx
      rcases List.mem_cons.1 hx with h1 | h2
      · subst h1
        exact (foldl_max_le t x.severity).1
      · exact (foldl_max_le t a.severity).2 x h2

/-- C6 is false on the code: `RiskMonitor.get_current_risk_level` draws
its no-alert baseline from `random.randint(1, 3)`; with the legal draw 3
and an empty alert list it returns 3, not the deterministic 2 (only
`EnhancedRiskMonitor` returns the constant 2). -/
theorem risk_baseline_random_counterexample :
    RiskMonitor.get_current_risk_level [] locTest 3 = 3 ∧
    RiskMonitor.get_current_risk_level [] locTest 3 ≠ 2 := by
  constructor <;>
    norm_num [RiskMonitor.get_current_risk_level, RiskMonitor.get_nearby_alerts]

/-- C6 amended: with at least one nearby alert, both monitors return
exactly the maximum severity over the nearby alerts; with none,
`EnhancedRiskMonitor` returns the deterministic baseline 2 while
`RiskMonitor` returns its random baseline draw from [1,3] (so its
baseline is not the constant 2). -/
theorem risk_level_max_and_baseline (loc : Location) (alerts : List RiskAlert)
    (draw : ℤ) :
    (EnhancedRiskMonitor.get_nearby_alerts alerts loc 100 = [] →
      EnhancedRiskMonitor.get_current_risk_level alerts loc = 2) ∧
    (EnhancedRiskMonitor.get_nearby_alerts alerts loc 100 ≠ [] →
      (∃ a ∈ EnhancedRiskMonitor.get_nearby_alerts alerts loc 100,
        EnhancedRiskMonitor.get_current_risk_level alerts loc = a.severity) ∧
      ∀ a ∈ EnhancedRiskMonitor.get_nearby_alerts alerts loc 100,
        a.severity ≤ EnhancedRiskMonitor.get_current_risk_level alerts loc) ∧
    (RiskMonitor.get_nearby_alerts alerts loc 100 = [] →
      RiskMonitor.get_current_risk_level alerts loc draw = draw) ∧
    (RiskMonitor.get_nearby_alerts alerts loc 100 ≠ [] →
      (∃ a ∈ RiskMonitor.get_nearby_alerts alerts loc 100,
        RiskMonitor.get_current_risk_level alerts loc draw = a.severity) ∧
      ∀ a ∈ RiskMonitor.get_nearby_alerts alerts loc 100,
        a.severity ≤ RiskMonitor.get_current_risk_level alerts loc draw) := by
  refine ⟨?_, ?_, ?_, ?_⟩
  · intro h
    simp only [EnhancedRiskMonitor.get_current_risk_level]
    rw [if_pos h]
  · intro h
    simp only [EnhancedRiskMonitor.get_current_risk_level]
    rw [if_neg h]
    exact maxSeverity_spec _ h
  · intro h
    simp only [RiskMonitor.get_current_risk_level]
    rw [if_pos h]
  · intro h
    simp only [RiskMonitor.get_current_risk_level]
    rw [if_neg h]
    exact maxSeverity_spec _ h

/-- Witness for amended C6: at `locTest`, the empty alert list gives
baselines 2 (enhanced) and the raw draw 1 (risk monitor); a severity-9
alert at the same coordinates gives risk level 9. -/
theorem risk_level_max_and_baseline_witness :
    EnhancedRiskMonitor.get_current_risk_level [] locTest = 2 ∧
    RiskMonitor.get_current_risk_level [] locTest 1 = 1 ∧
    EnhancedRiskMonitor.get_current_risk_level [alertNear] locTest = 9 := by
  have hval : EnhancedRiskMonitor.get_nearby_alerts [alertNear] locTest 100 =
      [alertNear] := by
    norm_num [EnhancedRiskMonitor.get_nearby_alerts, is_nearby, alertNear,
      locTest, List.filter, decide_eq_true_eq]
  have h1 := (risk_level_max_and_baseline locTest [] 1).1 rfl
  have h2 := (risk_level_max_and_baseline locTest [] 1).2.2.1 rfl
  have h3 := ((risk_level_max_and_baseline locTest [alertNear] 1).2.1
    (by rw [hval]; exact List.cons_ne_nil _ _)).1
  obtain ⟨a, ha, heq⟩ := h3
  rw [hval] at ha
  have haa : a = alertNear := by simpa using ha
  subst haa
  exact ⟨h1, h2, heq⟩

/-- C8 is false on the code: the alert loop is last-write-wins, not a
monotone merge. After a severity-7 payment disruption sets atm OFFLINE,
a later severity-5 natural-disaster alert overwrites atm back to
CONGESTED — strictly toward ONLINE in the severity ordering. -/
theorem chaos_not_monotone_counterexample :
    (ChaosSimulator.analyze_alerts_for_network_effects [alertPayment]).atm =
      "OFFLINE" ∧
    (ChaosSimulator.analyze_alerts_for_network_effects
      [alertPayment, alertFlood]).atm = "CONGESTED" ∧
    effectRank ((ChaosSimulator.analyze_alerts_for_network_effects
        [alertPayment, alertFlood]).atm) <
      effectRank ((ChaosSimulator.analyze_alerts_for_network_effects
        [alertPayment]).atm) := by
  refine ⟨?_, ?_, ?_⟩ <;> decide

/-- C8 amended: the per-alert network-effect merge is last-write-wins.
Whatever degradation earlier alerts accumulated, appending a moderate
(severity 5–6) natural-disaster alert that matches no other branch
overwrites the atm and mobile-money channels to CONGESTED. -/
theorem chaos_last_write_wins (pre : List RiskAlert) (a : RiskAlert)
    (hnat : natCond a = true) (hpay : payCond a = false)
    (hsec : secCond a = false) (hpol : polCond a = false)
    (h5 : 5 ≤ a.severity) (h7 : a.severity < 7) :
    (ChaosSimulator.analyze_alerts_for_network_effects (pre ++ [a])).atm =
      "CONGESTED" ∧
    (ChaosSimulator.analyze_alerts_for_network_effects (pre ++ [a])).mobile_money =
      "CONGESTED" := by
  have hstep : ∀ st : NetworkEffects,
      chaosStep st a = { st with atm := "CONGESTED", mobile_money := "CONGESTED" } := by
    intro st
    simp only [chaosStep, hnat, hpay, hsec, hpol]
    simp only [Bool.false_eq_true, if_false, if_true]
    rw [if_neg (by omega), if_pos (by omega)]
  have hne : pre ++ [a] ≠ [] := by simp
  simp only [ChaosSimulator.analyze_alerts_for_network_effects]
  rw [if_neg hne, List.foldl_append]
  simp only [List.foldl_cons, List.foldl_nil]
  rw [hstep]
  split_ifs <;> exact ⟨rfl, rfl⟩

/-- Witness for amended C8 at the concrete two-alert list. -/
theorem chaos_last_write_wins_witness :
    (ChaosSimulator.analyze_alerts_for_network_effects
      ([alertPayment] ++ [alertFlood])).atm = "CONGESTED" ∧
    (ChaosSimulator.analyze_alerts_for_network_effects
      ([alertPayment] ++ [alertFlood])).mobile_money = "CONGESTED" :=
  chaos_last_write_wins [alertPayment] alertFlood (by decide) (by decide)
    (by decide) (by decide) (by decide) (by decide)

end SafePassage
